/-
Verification of the NoLongerEvil-SelfHosted subscription engine.

Shallow embedding of the Python sources:
  * src/nolongerevil/services/subscription_manager.py
  * src/nolongerevil/services/device_availability.py
  * src/nolongerevil/routes/nest/entry.py
  * src/nolongerevil/config/environment.py
together with a spec-modelled Object Store (its implementation,
SQLModelService / DeviceStateService, is declared in services/__init__.py
and exercised by tests but is not among the provided sources).

Python `dict`s preserve insertion order, so they are embedded as
association lists (`List (key × value)`), with `d[k] = v` replacing in
place when the key is present and appending otherwise, exactly as CPython
does.  `uuid.uuid4()` is modelled as a fresh-counter supply (uuid4 values
are assumed unique).  Wall-clock / monotonic clock readings are integers;
every claim involving time only compares and subtracts clock readings.
-/

import Mathlib

namespace NoLongerEvil

/-! ## Association lists embedding Python dicts -/

/-- `d[k]` / `d.get(k)` on a Python dict: first (unique) binding. -/
def alookup {κ α : Type} [DecidableEq κ] (l : List (κ × α)) (k : κ) :
    Option α :=
  match l with
  | [] => none
  | (k', v) :: rest => if k' = k then some v else alookup rest k

/-- `d[k] = v` on a Python dict: replace in place when present, else append. -/
def ainsert {κ α : Type} [DecidableEq κ] (l : List (κ × α)) (k : κ) (v : α) :
    List (κ × α) :=
  match l with
  | [] => [(k, v)]
  | (k', v') :: rest =>
      if k' = k then (k, v) :: rest else (k', v') :: ainsert rest k v

/-- `del d[k]` / `d.pop(k)` on a Python dict. -/
def aerase {κ α : Type} [DecidableEq κ] (l : List (κ × α)) (k : κ) :
    List (κ × α) :=
  match l with
  | [] => []
  | (k', v') :: rest =>
      if k' = k then rest else (k', v') :: aerase rest k

/-- `k in d` on a Python dict. -/
def amem {κ α : Type} [DecidableEq κ] (l : List (κ × α)) (k : κ) : Bool :=
  (alookup l k).isSome

/-! ## Data model (nolongerevil.lib.types.DeviceObject)

`value` is an opaque structured payload; the store persists its encoded
form, so it is embedded as the encoded string.  No claim inspects its
structure. -/

/-- A device state object: `(serial, object_key)`-addressed record. -/
structure DeviceObject where
  serial : String
  object_key : String
  object_revision : Int
  object_timestamp : Int
  value : String
  deriving DecidableEq, Repr

/-- A Python scalar appearing in a formatted notification dict. -/
inductive PyVal where
  | int (n : Int)
  | str (s : String)
  deriving DecidableEq, Repr

/-- A formatted notification dict: ordered field list, as serialized JSON
preserves Python dict insertion order. -/
abbrev Dict := List (String × PyVal)

/-! ## Subscription manager (services/subscription_manager.py)

Clock readings (`time.monotonic()`, `datetime.now()`) are embedded as
integers; every claim involving time only compares and subtracts clock
readings, so nothing depends on sub-integer granularity. -/

/-- `RESUBSCRIBE_WINDOW_SECONDS = 5.0`. -/
def RESUBSCRIBE_WINDOW_SECONDS : Int := 5

/-- `settings.max_subscriptions_per_device` (default 100, environment.py). -/
def max_subscriptions_per_device : Nat := 100

/-- `LongPollSubscription`: long-poll server-push subscription.  The
`notify_queue` is an `asyncio.Queue()` constructed with no `maxsize`,
i.e. unbounded; it is embedded as the list of queued batches in FIFO
order.  `id` is a server-generated uuid4, embedded as a Nat. -/
structure LongPollSubscription where
  id : Nat
  serial : String
  session_id : String
  subscribed_keys : List (String × Int)
  notify_queue : List (List Dict) := []
  created_at : Int := 0
  deriving DecidableEq, Repr

/-- `PendingSubscription`: future-based subscription.  `future_done`
embeds `future.done()`. -/
structure PendingSubscription where
  serial : String
  session_id : Nat
  subscribed_keys : List (String × Int)
  future_done : Bool := false
  created_at : Int := 0
  deriving DecidableEq, Repr

/-- `SubscriptionManager` state: the two per-serial tables keyed by
serial then by subscription id / session id, plus `_last_subscription_end`.
`next_id` embeds the uuid4 supply (fresh ids). -/
structure SubscriptionManager where
  subscriptions : List (String × List (Nat × PendingSubscription)) := []
  long_poll_subscriptions : List (String × List (Nat × LongPollSubscription)) := []
  last_subscription_end : List (String × Int) := []
  next_id : Nat := 0
  deriving DecidableEq, Repr

/-- `self._long_poll_subscriptions.get(serial, {})`. -/
def long_poll_subs_of (m : SubscriptionManager) (serial : String) :
    List (Nat × LongPollSubscription) :=
  (alookup m.long_poll_subscriptions serial).getD []

/-- `self._subscriptions.get(serial, {})`. -/
def future_subs_of (m : SubscriptionManager) (serial : String) :
    List (Nat × PendingSubscription) :=
  (alookup m.subscriptions serial).getD []

/-- `add_long_poll_subscription`: reject with `None` when the per-serial
table already holds `max_subscriptions_per_device` entries; otherwise mint
a fresh id and register. -/
def add_long_poll_subscription (m : SubscriptionManager) (serial : String)
    (session_id : String) (subscribed_keys : List (String × Int)) :
    Option LongPollSubscription × SubscriptionManager :=
  let device_subs := long_poll_subs_of m serial
  if device_subs.length ≥ max_subscriptions_per_device then
    (none, m)
  else
    let subscription : LongPollSubscription :=
      { id := m.next_id, serial := serial, session_id := session_id,
        subscribed_keys := subscribed_keys }
    let table :=
      ainsert m.long_poll_subscriptions serial
        (ainsert device_subs subscription.id subscription)
    (some subscription,
     { m with long_poll_subscriptions := table, next_id := m.next_id + 1 })

/-- `remove_long_poll_subscription`: delete by id when present, recording
`_last_subscription_end[serial] = time.monotonic()`; drop the serial entry
when its table empties. -/
def remove_long_poll_subscription (m : SubscriptionManager)
    (subscription : LongPollSubscription) (now : Int) : SubscriptionManager :=
  let device_subs := long_poll_subs_of m subscription.serial
  let m' :=
    if (alookup device_subs subscription.id).isSome then
      { m with
        long_poll_subscriptions :=
          ainsert m.long_poll_subscriptions subscription.serial
            (aerase device_subs subscription.id),
        last_subscription_end :=
          ainsert m.last_subscription_end subscription.serial now }
    else m
  let device_subs' := long_poll_subs_of m' subscription.serial
  if device_subs'.isEmpty ∧ amem m'.long_poll_subscriptions subscription.serial then
    { m' with
      long_poll_subscriptions :=
        aerase m'.long_poll_subscriptions subscription.serial }
  else m'

/-- `notify_long_poll_subscribers`: `put_nowait(changed_objects)` on every
subscription's queue for the serial (the queue is unbounded, so the put
never raises), counting each. -/
def notify_long_poll_subscribers (m : SubscriptionManager) (serial : String)
    (changed_objects : List Dict) : Nat × SubscriptionManager :=
  let device_subs := long_poll_subs_of m serial
  let device_subs' := device_subs.map (fun (sub_id, sub) =>
    (sub_id, { sub with notify_queue := sub.notify_queue ++ [changed_objects] }))
  let notified := device_subs.length
  if amem m.long_poll_subscriptions serial then
    (notified,
     { m with
       long_poll_subscriptions :=
         ainsert m.long_poll_subscriptions serial device_subs' })
  else (notified, m)

/-- `add_subscription` (future-based): raises `HTTPTooManyRequests`
(429, embedded as `Except.error`) at the cap; otherwise mints a uuid4
session id, registers a pending future, and returns the session id. -/
def add_subscription (m : SubscriptionManager) (serial : String)
    (subscribed_keys : List (String × Int)) :
    Except Unit (Nat × SubscriptionManager) :=
  let device_subs := future_subs_of m serial
  if device_subs.length ≥ max_subscriptions_per_device then
    Except.error ()
  else
    let session_id := m.next_id
    let subscription : PendingSubscription :=
      { serial := serial, session_id := session_id,
        subscribed_keys := subscribed_keys }
    Except.ok (session_id,
      { m with
        subscriptions :=
          ainsert m.subscriptions serial
            (ainsert device_subs session_id subscription),
        next_id := m.next_id + 1 })

/-- `remove_subscription` (future-based): pop the session and cancel its
future when pending; drop the serial entry when its table empties.  Note:
unlike the long-poll removal, `_last_subscription_end` is not touched. -/
def remove_subscription (m : SubscriptionManager) (serial : String)
    (session_id : Nat) : SubscriptionManager :=
  if amem m.subscriptions serial ∧
      (alookup (future_subs_of m serial) session_id).isSome then
    let device_subs := aerase (future_subs_of m serial) session_id
    if device_subs.isEmpty then
      { m with subscriptions := aerase m.subscriptions serial }
    else
      { m with subscriptions := ainsert m.subscriptions serial device_subs }
  else m

/-- The inner loop of `notify_subscribers` building `relevant_updates`
for one subscription: a fold appending each updated object whose key is
subscribed and whose revision exceeds the recorded one. -/
def relevant_updates (sub : PendingSubscription)
    (updated_objects : List DeviceObject) : List DeviceObject :=
  updated_objects.foldl
    (fun acc obj =>
      match alookup sub.subscribed_keys obj.object_key with
      | some last_rev =>
          if obj.object_revision > last_rev then acc ++ [obj] else acc
      | none => acc)
    []

/-- `notify_subscribers` (future-based): for each session compute
`relevant_updates`; when non-empty and the future is still pending,
resolve the future with it (a delivery, recorded as
`(session_id, relevant)`), count it, and remove the session; drop the
serial entry when the table empties.  Returns
(count, new state, deliveries). -/
def notify_subscribers (m : SubscriptionManager) (serial : String)
    (updated_objects : List DeviceObject) :
    Nat × SubscriptionManager × List (Nat × List DeviceObject) :=
  let device_subs := future_subs_of m serial
  let deliveries := device_subs.filterMap (fun (session_id, sub) =>
    let relevant := relevant_updates sub updated_objects
    if ¬relevant.isEmpty ∧ ¬sub.future_done then
      some (session_id, relevant)
    else none)
  let device_subs' :=
    deliveries.foldl (fun subs (session_id, _) => aerase subs session_id)
      device_subs
  let table :=
    if amem m.subscriptions serial then
      let t := ainsert m.subscriptions serial device_subs'
      if device_subs'.isEmpty then aerase t serial else t
    else m.subscriptions
  (deliveries.length, { m with subscriptions := table }, deliveries)

/-- The dict-comprehension of `notify_subscribers_with_objects`: field
order `object_revision, object_timestamp, object_key, value`, no
`serial`. -/
def format_updated_objects (updated_objects : List DeviceObject) :
    List Dict :=
  updated_objects.map (fun obj =>
    [("object_revision", PyVal.int obj.object_revision),
     ("object_timestamp", PyVal.int obj.object_timestamp),
     ("object_key", PyVal.str obj.object_key),
     ("value", PyVal.str obj.value)])

/-- `_notify_all`: long-poll notification with the formatted dicts, then
future-based notification with the original objects when present. -/
def notify_all (m : SubscriptionManager) (serial : String)
    (formatted_objects : List Dict) (device_objects : List DeviceObject) :
    Nat × SubscriptionManager × List (Nat × List DeviceObject) :=
  let r1 := notify_long_poll_subscribers m serial formatted_objects
  if device_objects.isEmpty then (r1.1, r1.2, [])
  else
    let r2 := notify_subscribers r1.2 serial device_objects
    (r1.1 + r2.1, r2.2.1, r2.2.2)

/-- `notify_subscribers_with_objects`: format the objects, then
`_notify_all` with both representations. -/
def notify_subscribers_with_objects (m : SubscriptionManager)
    (serial : String) (updated_objects : List DeviceObject) :
    Nat × SubscriptionManager × List (Nat × List DeviceObject) :=
  if updated_objects.isEmpty then (0, m, [])
  else
    notify_all m serial (format_updated_objects updated_objects)
      updated_objects

/-- `get_subscription_count`. -/
def get_subscription_count (m : SubscriptionManager) (serial : String) : Nat :=
  (future_subs_of m serial).length + (long_poll_subs_of m serial).length

/-- `has_active_subscription`. -/
def has_active_subscription (m : SubscriptionManager) (serial : String) : Bool :=
  (amem m.subscriptions serial ∧ (future_subs_of m serial).length > 0) ∨
  (amem m.long_poll_subscriptions serial ∧
    (long_poll_subs_of m serial).length > 0)

/-- `is_resubscribe`: false when the serial has no recorded end; true iff
the last end is within `RESUBSCRIBE_WINDOW_SECONDS` of now. -/
def is_resubscribe (m : SubscriptionManager) (serial : String)
    (now : Int) : Bool :=
  match alookup m.last_subscription_end serial with
  | none => false
  | some last_end => now - last_end < RESUBSCRIBE_WINDOW_SECONDS

/-! ## Availability watchdog (services/device_availability.py)

The integration manager is taken as set (`set_integration_manager` was
called); its `on_device_connected` / `on_device_disconnected` calls are
the emitted events. -/

/-- `DEFAULT_DEVICE_TIMEOUT = 300` seconds. -/
def DEFAULT_DEVICE_TIMEOUT : Int := 300

/-- `DeviceStatus`: per-serial availability record. -/
structure DeviceStatus where
  serial : String
  last_seen : Int
  is_available : Bool := true
  deriving DecidableEq, Repr

/-- An availability edge delivered to integrations. -/
inductive AvailEvent where
  | connected (serial : String)
  | disconnected (serial : String)
  deriving DecidableEq, Repr

/-- `DeviceAvailability` state: the tracked-device table and the
configured timeout. -/
structure DeviceAvailability where
  devices : List (String × DeviceStatus) := []
  timeout : Int := DEFAULT_DEVICE_TIMEOUT
  deriving DecidableEq, Repr

/-- `initialize_from_serials`: track each not-yet-known serial as
available with `last_seen = now`; already-tracked serials are left
alone.  The body makes no integration calls, so the emitted event list
is empty. -/
def init_serial_step (now : Int) (acc : DeviceAvailability) (serial : String) :
    DeviceAvailability :=
  if (alookup acc.devices serial).isSome then acc
  else
    { acc with
      devices :=
        ainsert acc.devices serial
          { serial := serial, last_seen := now, is_available := true } }

def initialize_from_serials (d : DeviceAvailability) (serials : List String)
    (now : Int) : DeviceAvailability × List AvailEvent :=
  (serials.foldl (init_serial_step now) d, [])

/-- `mark_device_seen`: track a new serial (emitting `connected`), or
refresh `last_seen`; a tracked unavailable device flips back to available
and emits `connected`; a tracked available device emits nothing. -/
def mark_device_seen (d : DeviceAvailability) (serial : String)
    (now : Int) : DeviceAvailability × List AvailEvent :=
  match alookup d.devices serial with
  | none =>
      ({ d with
         devices :=
           ainsert d.devices serial
             { serial := serial, last_seen := now, is_available := true } },
       [AvailEvent.connected serial])
  | some status =>
      let was_available := status.is_available
      let status' := { status with last_seen := now }
      if ¬was_available then
        ({ d with
           devices :=
             ainsert d.devices serial { status' with is_available := true } },
         [AvailEvent.connected serial])
      else
        ({ d with devices := ainsert d.devices serial status' }, [])

/-- `_mark_device_unavailable`: only a tracked, currently-available
device flips to unavailable and emits `disconnected`. -/
def mark_device_unavailable (d : DeviceAvailability) (serial : String) :
    DeviceAvailability × List AvailEvent :=
  match alookup d.devices serial with
  | none => (d, [])
  | some status =>
      if status.is_available then
        ({ d with
           devices :=
             ainsert d.devices serial { status with is_available := false } },
         [AvailEvent.disconnected serial])
      else (d, [])

/-- `_check_devices`: iterate over a snapshot of the table; a serial with
a live subscription is marked seen (heartbeat), otherwise an available
serial whose `last_seen` predates `now - timeout` is marked
unavailable.  `has_active_sub` embeds
`subscription_manager.has_active_subscription`. -/
def check_devices_step (has_active_sub : String → Bool)
    (now stale_threshold : Int) (acc : DeviceAvailability × List AvailEvent)
    (entry : String × DeviceStatus) : DeviceAvailability × List AvailEvent :=
  if has_active_sub entry.1 then
    let r := mark_device_seen acc.1 entry.1 now
    (r.1, acc.2 ++ r.2)
  else if entry.2.is_available ∧ entry.2.last_seen < stale_threshold then
    let r := mark_device_unavailable acc.1 entry.1
    (r.1, acc.2 ++ r.2)
  else acc

def check_devices (d : DeviceAvailability) (has_active_sub : String → Bool)
    (now : Int) : DeviceAvailability × List AvailEvent :=
  d.devices.foldl (check_devices_step has_active_sub now (now - d.timeout))
    (d, [])

/-! ## Settings and the discovery endpoint
(config/environment.py, routes/nest/entry.py) -/

/-- The fields of `Settings` the device-facing URLs depend on. -/
structure Settings where
  api_origin : String := "https://backdoor.nolongerevil.com"
  proxy_port : Nat := 443
  deriving DecidableEq, Repr

/-- The `urlparse`-relevant shape of an origin:
`scheme://hostname[:port]`. -/
structure ParsedOrigin where
  scheme : String
  hostname : String
  port : Option Nat
  deriving DecidableEq, Repr

/-- `urlunparse` of an origin-only URL. -/
def renderOrigin (p : ParsedOrigin) : String :=
  p.scheme ++ "://" ++ p.hostname ++
    (match p.port with
     | some n => ":" ++ toString n
     | none => "")

/-- `Settings.api_origin_with_port`: when the parsed origin has no
explicit port, rebuild the netloc as `hostname:proxy_port`.  `parsed`
stands for `urlparse(self.api_origin)`, supplied by the caller with the
proof obligation that it renders back to `api_origin`. -/
def api_origin_with_port (s : Settings) (parsed : ParsedOrigin) : String :=
  match parsed.port with
  | none => renderOrigin { parsed with port := some s.proxy_port }
  | some _ => s.api_origin

/-- `handle_entry`: the discovery document's URL-valued fields, each
built by concatenating `settings.api_origin` (not
`api_origin_with_port`) with the service path. -/
def handle_entry_urls (s : Settings) : List (String × String) :=
  let origin := s.api_origin
  [("czfe_url", origin ++ "/nest/transport"),
   ("transport_url", origin ++ "/nest/transport"),
   ("direct_transport_url", origin ++ "/nest/transport"),
   ("passphrase_url", origin ++ "/nest/passphrase"),
   ("ping_url", origin ++ "/nest/transport"),
   ("pro_info_url", origin ++ "/nest/pro_info"),
   ("weather_url", origin ++ "/nest/weather/v1?query="),
   ("upload_url", origin ++ "/nest/upload")]

/-- The firmware's port detector: some `:` immediately followed by a
digit occurs in the URL (the firmware scans backwards for `:` followed
by digits; a URL with no such pair yields no port at all). -/
def char_scan_port : List Char → Bool
  | [] => false
  | [_] => false
  | c :: d :: rest => (c = ':' && d.isDigit) || char_scan_port (d :: rest)

/-- Whether a URL carries an explicit port the firmware can find. -/
def url_carries_explicit_port (url : String) : Bool :=
  char_scan_port url.data

/-! ## Object Store (spec-modelled)

The store implementation (`SQLModelService` / `DeviceStateService`) is
declared in `services/__init__.py` and exercised by
`tests/test_sqlmodel_service.py`, but its source is not provided. -/

/-- Stored record for one `(serial, object_key)`. -/
structure StoredState where
  revision : Int
  timestamp : Int
  value : String
  deriving DecidableEq, Repr

/-- The object store's persisted table. -/
structure ObjectStore where
  states : List ((String × String) × StoredState) := []
  deriving DecidableEq, Repr

/-- Result of an upsert. -/
inductive UpsertResult where
  | written
  | stale
  deriving DecidableEq, Repr

/-- Modelled from the spec: `upsert(obj) → {written | stale}` of the
Object Store (§4.1), whose implementation is not among the provided
sources.  "If the stored revision for `(serial, object_key)` is
`≥ obj.revision`, returns `stale` without side effect.  Otherwise writes
and returns `written`.  Publishes to the Change Bus only on `written`."
The third component is the list of Change Bus publications. -/
def upsert (st : ObjectStore) (obj : DeviceObject) :
    UpsertResult × ObjectStore × List DeviceObject :=
  match alookup st.states (obj.serial, obj.object_key) with
  | some stored =>
      if stored.revision ≥ obj.object_revision then
        (UpsertResult.stale, st, [])
      else
        (UpsertResult.written,
         { states :=
             ainsert st.states (obj.serial, obj.object_key)
               { revision := obj.object_revision,
                 timestamp := obj.object_timestamp, value := obj.value } },
         [obj])
  | none =>
      (UpsertResult.written,
       { states :=
           ainsert st.states (obj.serial, obj.object_key)
             { revision := obj.object_revision,
               timestamp := obj.object_timestamp, value := obj.value } },
       [obj])

/-! ## Spec-side delta (for refinement comparison)

These definitions follow the spec's words — "include iff
`o.object_key ∈ sub.watched` AND `o.revision > sub.watched[o.object_key]`"
— and are compared against the source-derived notification functions. -/

/-- The spec's per-object inclusion test. -/
def spec_delta_pred (watched : List (String × Int)) (o : DeviceObject) :
    Bool :=
  match alookup watched o.object_key with
  | some last_rev => decide (o.object_revision > last_rev)
  | none => false

/-- The spec's delta: the subset of the batch the subscription should
receive. -/
def spec_delta (watched : List (String × Int))
    (batch : List DeviceObject) : List DeviceObject :=
  batch.filter (spec_delta_pred watched)

/-- The spec's per-object inclusion test on a formatted dict. -/
def spec_dict_delta_pred (watched : List (String × Int)) (o : Dict) : Bool :=
  match alookup o "object_key", alookup o "object_revision" with
  | some (PyVal.str k), some (PyVal.int r) =>
      match alookup watched k with
      | some last_rev => decide (r > last_rev)
      | none => false
  | _, _ => false

/-- The spec's delta on a batch of formatted dicts. -/
def spec_dict_delta (watched : List (String × Int)) (batch : List Dict) :
    List Dict :=
  batch.filter (spec_dict_delta_pred watched)

/-! ## General lemmas about the dict embedding -/

theorem alookup_ainsert_self {κ α : Type} [DecidableEq κ]
    (l : List (κ × α)) (k : κ) (v : α) :
    alookup (ainsert l k v) k = some v := by
  induction l with
  | nil => simp [ainsert, alookup]
  | cons hd tl ih =>
      obtain ⟨k', v'⟩ := hd
      by_cases hk : k' = k <;> simp [ainsert, alookup, hk, ih]

theorem alookup_ainsert_ne {κ α : Type} [DecidableEq κ]
    (l : List (κ × α)) (k k' : κ) (v : α) (h : k ≠ k') :
    alookup (ainsert l k v) k' = alookup l k' := by
  induction l with
  | nil => simp [ainsert, alookup, h]
  | cons hd tl ih =>
      obtain ⟨k₀, v₀⟩ := hd
      by_cases hk : k₀ = k
      · subst hk; simp [ainsert, alookup, h]
      · simp [ainsert, alookup, hk, ih]

theorem alookup_eq_none_of_not_mem_keys {κ α : Type} [DecidableEq κ]
    (l : List (κ × α)) (k : κ) (h : k ∉ l.map Prod.fst) :
    alookup l k = none := by
  induction l with
  | nil => simp [alookup]
  | cons hd tl ih =>
      obtain ⟨k', v'⟩ := hd
      simp only [List.map_cons, List.mem_cons] at h
      push_neg at h
      have hk : k' ≠ k := fun hk => h.1 hk.symm
      simp [alookup, hk, ih h.2]

theorem alookup_isSome_of_mem {κ α : Type} [DecidableEq κ]
    (l : List (κ × α)) (k : κ) (v : α) (h : (k, v) ∈ l) :
    (alookup l k).isSome := by
  induction l with
  | nil => simp at h
  | cons hd tl ih =>
      obtain ⟨k', v'⟩ := hd
      rcases List.mem_cons.mp h with h1 | h2
      · rw [Prod.mk.injEq] at h1
        simp [alookup, h1.1.symm]
      · by_cases hk : k' = k <;> simp [alookup, hk, ih h2]

theorem aerase_sublist {κ α : Type} [DecidableEq κ]
    (l : List (κ × α)) (k : κ) : (aerase l k).Sublist l := by
  induction l with
  | nil => simp [aerase]
  | cons hd tl ih =>
      obtain ⟨k', v'⟩ := hd
      by_cases hk : k' = k
      · simp only [aerase, if_pos hk]
        exact List.sublist_cons_self _ _
      · simp only [aerase, if_neg hk]
        exact ih.cons₂ (k', v')

theorem keys_nodup_aerase {κ α : Type} [DecidableEq κ]
    (l : List (κ × α)) (k : κ) (h : (l.map Prod.fst).Nodup) :
    ((aerase l k).map Prod.fst).Nodup :=
  ((aerase_sublist l k).map Prod.fst).nodup h

theorem alookup_aerase_self {κ α : Type} [DecidableEq κ]
    (l : List (κ × α)) (k : κ) (h : (l.map Prod.fst).Nodup) :
    alookup (aerase l k) k = none := by
  induction l with
  | nil => simp [aerase, alookup]
  | cons hd tl ih =>
      obtain ⟨k', v'⟩ := hd
      simp only [List.map_cons, List.nodup_cons] at h
      by_cases hk : k' = k
      · subst hk
        simpa [aerase] using alookup_eq_none_of_not_mem_keys tl k' h.1
      · simp [aerase, alookup, hk, ih h.2]

theorem alookup_aerase_ne {κ α : Type} [DecidableEq κ]
    (l : List (κ × α)) (k k' : κ) (h : k ≠ k') :
    alookup (aerase l k) k' = alookup l k' := by
  induction l with
  | nil => simp [aerase]
  | cons hd tl ih =>
      obtain ⟨k₀, v₀⟩ := hd
      by_cases hk : k₀ = k
      · subst hk; simp [aerase, alookup, h]
      · simp [aerase, alookup, hk, ih]

theorem alookup_aerase_none {κ α : Type} [DecidableEq κ]
    (l : List (κ × α)) (k k' : κ) (h : alookup l k' = none) :
    alookup (aerase l k) k' = none := by
  induction l with
  | nil => simpa [aerase] using h
  | cons hd tl ih =>
      obtain ⟨k₀, v₀⟩ := hd
      by_cases hk0 : k₀ = k'
      · simp [alookup, hk0] at h
      · simp only [alookup, hk0, if_false] at h
        by_cases hk : k₀ = k
        · simpa [aerase, hk] using h
        · simp [aerase, alookup, hk, hk0, ih h]

/-! ## Characterizations of the notification functions -/

/-- The `relevant_updates` loop computes exactly the spec's delta. -/
theorem relevant_updates_eq_spec_delta (sub : PendingSubscription)
    (updated_objects : List DeviceObject) :
    relevant_updates sub updated_objects =
      spec_delta sub.subscribed_keys updated_objects := by
  have h : ∀ (l : List DeviceObject) (acc : List DeviceObject),
      l.foldl
        (fun acc obj =>
          match alookup sub.subscribed_keys obj.object_key with
          | some last_rev =>
              if obj.object_revision > last_rev then acc ++ [obj] else acc
          | none => acc)
        acc = acc ++ l.filter (spec_delta_pred sub.subscribed_keys) := by
    intro l
    induction l with
    | nil => intro acc; simp
    | cons x t ih =>
        intro acc
        simp only [List.foldl_cons, List.filter_cons]
        cases hx : alookup sub.subscribed_keys x.object_key with
        | none => simp [spec_delta_pred, hx, ih]
        | some last_rev =>
            by_cases hr : x.object_revision > last_rev <;>
              simp [spec_delta_pred, hx, hr, ih]
  simpa [relevant_updates, spec_delta] using h updated_objects []

/-- `notify_long_poll_subscribers` appends the whole batch, unfiltered,
to every subscription's queue for the serial, and counts every one. -/
theorem notify_long_poll_subscribers_eq (m : SubscriptionManager)
    (serial : String) (changed_objects : List Dict) :
    long_poll_subs_of (notify_long_poll_subscribers m serial changed_objects).2
        serial =
      (long_poll_subs_of m serial).map (fun e =>
        (e.1, { e.2 with notify_queue := e.2.notify_queue ++ [changed_objects] })) ∧
    (notify_long_poll_subscribers m serial changed_objects).1 =
      (long_poll_subs_of m serial).length := by
  by_cases hmem : amem m.long_poll_subscriptions serial
  · constructor
    · simp only [notify_long_poll_subscribers, hmem, if_true, long_poll_subs_of,
        alookup_ainsert_self]
      rfl
    · simp [notify_long_poll_subscribers, hmem]
  · have hnone : alookup m.long_poll_subscriptions serial = none := by
      rw [← Option.not_isSome_iff_eq_none]
      simpa [amem] using hmem
    constructor
    · simp [notify_long_poll_subscribers, hmem, long_poll_subs_of, hnone]
    · simp [notify_long_poll_subscribers, hmem]

/-- `notify_long_poll_subscribers` leaves every other part of the state
alone: the future table, the other serials' long-poll tables, and the
last-end map. -/
theorem notify_long_poll_subscribers_frame (m : SubscriptionManager)
    (serial : String) (changed_objects : List Dict) :
    (notify_long_poll_subscribers m serial changed_objects).2.subscriptions =
      m.subscriptions ∧
    (notify_long_poll_subscribers m serial changed_objects).2.last_subscription_end =
      m.last_subscription_end ∧
    ∀ s, s ≠ serial →
      long_poll_subs_of (notify_long_poll_subscribers m serial changed_objects).2 s =
        long_poll_subs_of m s := by
  by_cases hmem : amem m.long_poll_subscriptions serial
  · refine ⟨by simp [notify_long_poll_subscribers, hmem],
      by simp [notify_long_poll_subscribers, hmem], fun s hs => ?_⟩
    simp [notify_long_poll_subscribers, hmem, long_poll_subs_of,
      alookup_ainsert_ne _ _ _ _ (fun h => hs h.symm)]
  · exact ⟨by simp [notify_long_poll_subscribers, hmem],
      by simp [notify_long_poll_subscribers, hmem],
      fun s _ => by simp [notify_long_poll_subscribers, hmem]⟩

/-- The deliveries of `notify_subscribers` are exactly the spec deltas of
the pending, non-resolved subscriptions, in table order. -/
theorem notify_subscribers_deliveries_eq (m : SubscriptionManager)
    (serial : String) (updated_objects : List DeviceObject) :
    (notify_subscribers m serial updated_objects).2.2 =
      (future_subs_of m serial).filterMap (fun (session_id, sub) =>
        if ¬(spec_delta sub.subscribed_keys updated_objects).isEmpty ∧
            ¬sub.future_done then
          some (session_id, spec_delta sub.subscribed_keys updated_objects)
        else none) := by
  simp only [notify_subscribers, relevant_updates_eq_spec_delta]

theorem mem_keys_ainsert {κ α : Type} [DecidableEq κ]
    (l : List (κ × α)) (k x : κ) (v : α)
    (h : x ∈ (ainsert l k v).map Prod.fst) :
    x = k ∨ x ∈ l.map Prod.fst := by
  induction l with
  | nil => simpa [ainsert] using h
  | cons hd tl ih =>
      obtain ⟨k₀, v₀⟩ := hd
      by_cases hk : k₀ = k
      · subst hk
        simpa [ainsert] using h
      · simp only [ainsert, if_neg hk, List.map_cons, List.mem_cons] at h
        rcases h with h | h
        · exact Or.inr (by simp [h])
        · rcases ih h with h' | h'
          · exact Or.inl h'
          · exact Or.inr (by simp [h'])

theorem keys_nodup_ainsert {κ α : Type} [DecidableEq κ]
    (l : List (κ × α)) (k : κ) (v : α) (h : (l.map Prod.fst).Nodup) :
    ((ainsert l k v).map Prod.fst).Nodup := by
  induction l with
  | nil => simp [ainsert]
  | cons hd tl ih =>
      obtain ⟨k₀, v₀⟩ := hd
      simp only [List.map_cons, List.nodup_cons] at h
      by_cases hk : k₀ = k
      · subst hk
        simpa [ainsert] using h
      · simp only [ainsert, if_neg hk, List.map_cons, List.nodup_cons]
        refine ⟨fun hmem => ?_, ih h.2⟩
        rcases mem_keys_ainsert tl k k₀ v hmem with h' | h'
        · exact hk h'
        · exact h.1 h'

/-- Erasing each delivered session id leaves no binding for a delivered
id, provided the table's keys are unique. -/
theorem foldl_aerase_none {κ α β : Type} [DecidableEq κ]
    (deliveries : List (κ × β)) (subs : List (κ × α)) (sid : κ)
    (h : alookup subs sid = none) :
    alookup
      (deliveries.foldl (fun subs e => aerase subs e.1) subs) sid = none := by
  induction deliveries generalizing subs with
  | nil => simpa using h
  | cons d t ih =>
      simpa using ih (aerase subs d.1) (alookup_aerase_none subs d.1 sid h)

theorem foldl_aerase_of_mem {κ α β : Type} [DecidableEq κ]
    (deliveries : List (κ × β)) (subs : List (κ × α)) (sid : κ)
    (hnd : (subs.map Prod.fst).Nodup) (hmem : sid ∈ deliveries.map Prod.fst) :
    alookup
      (deliveries.foldl (fun subs e => aerase subs e.1) subs) sid = none := by
  induction deliveries generalizing subs with
  | nil => simp at hmem
  | cons d t ih =>
      simp only [List.map_cons, List.mem_cons] at hmem
      simp only [List.foldl_cons]
      by_cases hs : sid = d.1
      · rw [hs]
        exact foldl_aerase_none t (aerase subs d.1) d.1
          (alookup_aerase_self subs d.1 hnd)
      · rcases hmem with h | h
        · exact absurd h hs
        · exact ih (aerase subs d.1) (keys_nodup_aerase subs d.1 hnd) h

/-- After `notify_subscribers`, a delivered session id has no binding in
the serial's table (the subscription is closed), assuming the Python-dict
invariant that keys are unique. -/
theorem notify_subscribers_closes (m : SubscriptionManager) (serial : String)
    (updated_objects : List DeviceObject) (sid : Nat)
    (hser : (m.subscriptions.map Prod.fst).Nodup)
    (hsubs : ((future_subs_of m serial).map Prod.fst).Nodup)
    (hdel : sid ∈
      ((notify_subscribers m serial updated_objects).2.2).map Prod.fst) :
    alookup
      (future_subs_of (notify_subscribers m serial updated_objects).2.1 serial)
      sid = none := by
  by_cases hmem : amem m.subscriptions serial
  · have herased :
        alookup
          (((notify_subscribers m serial updated_objects).2.2).foldl
            (fun subs e => aerase subs e.1) (future_subs_of m serial)) sid =
          none := by
      refine foldl_aerase_of_mem _ _ _ hsubs ?_
      simpa [notify_subscribers] using hdel
    by_cases hempty :
        (((notify_subscribers m serial updated_objects).2.2).foldl
          (fun subs e => aerase subs e.1) (future_subs_of m serial)).isEmpty
    · simp only [notify_subscribers, hmem, if_true, hempty] at *
      simp_all [future_subs_of,
        alookup_aerase_self _ serial (keys_nodup_ainsert _ _ _ hser), alookup]
    · simp only [notify_subscribers, hmem, if_true, hempty] at *
      simp_all [future_subs_of, alookup_ainsert_self]
  · have hnone : alookup m.subscriptions serial = none := by
      rw [← Option.not_isSome_iff_eq_none]
      simpa [amem] using hmem
    have : future_subs_of m serial = [] := by simp [future_subs_of, hnone]
    simp [notify_subscribers, hmem, future_subs_of, hnone, alookup]

/-- A session id with no binding in the serial's table receives no
delivery from `notify_subscribers`. -/
theorem notify_subscribers_not_delivered (m : SubscriptionManager)
    (serial : String) (updated_objects : List DeviceObject) (sid : Nat)
    (h : alookup (future_subs_of m serial) sid = none) :
    sid ∉ ((notify_subscribers m serial updated_objects).2.2).map Prod.fst := by
  intro hmem
  rw [notify_subscribers_deliveries_eq] at hmem
  simp only [List.mem_map] at hmem
  obtain ⟨p, hp, hps⟩ := hmem
  rw [List.mem_filterMap] at hp
  obtain ⟨e, he, hfe⟩ := hp
  obtain ⟨s, sub⟩ := e
  by_cases hc : ¬(spec_delta sub.subscribed_keys updated_objects).isEmpty ∧
      ¬sub.future_done
  · simp only [if_pos hc] at hfe
    obtain rfl : (s, spec_delta sub.subscribed_keys updated_objects) = p :=
      Option.some.inj hfe
    simp only at hps
    subst hps
    have hsome := alookup_isSome_of_mem _ _ _ he
    rw [h] at hsome
    simp at hsome
  · rw [if_neg hc] at hfe
    exact Option.noConfusion hfe

/-- `notify_subscribers` leaves the long-poll table and the last-end map
untouched. -/
theorem notify_subscribers_frame (m : SubscriptionManager) (serial : String)
    (updated_objects : List DeviceObject) :
    (notify_subscribers m serial updated_objects).2.1.long_poll_subscriptions =
      m.long_poll_subscriptions ∧
    (notify_subscribers m serial updated_objects).2.1.last_subscription_end =
      m.last_subscription_end := by
  exact ⟨by simp [notify_subscribers], by simp [notify_subscribers]⟩

theorem ainsert_length_le {κ α : Type} [DecidableEq κ]
    (l : List (κ × α)) (k : κ) (v : α) :
    (ainsert l k v).length ≤ l.length + 1 := by
  induction l with
  | nil => simp [ainsert]
  | cons hd tl ih =>
      obtain ⟨k₀, v₀⟩ := hd
      by_cases hk : k₀ = k
      · simp [ainsert, hk]
      · simp only [ainsert, if_neg hk, List.length_cons]
        omega

/-! ## Lemmas about the availability watchdog -/

/-- `mark_device_seen` emits either nothing or a single `connected`
edge. -/
theorem mark_device_seen_events (d : DeviceAvailability) (serial : String)
    (now : Int) :
    (mark_device_seen d serial now).2 = [] ∨
    (mark_device_seen d serial now).2 = [AvailEvent.connected serial] := by
  unfold mark_device_seen
  cases alookup d.devices serial with
  | none => simp
  | some status => by_cases h : status.is_available <;> simp [h]

/-- `mark_device_unavailable` emits either nothing or a single
`disconnected` edge. -/
theorem mark_device_unavailable_events (d : DeviceAvailability)
    (serial : String) :
    (mark_device_unavailable d serial).2 = [] ∨
    (mark_device_unavailable d serial).2 = [AvailEvent.disconnected serial] := by
  unfold mark_device_unavailable
  cases alookup d.devices serial with
  | none => simp
  | some status => by_cases h : status.is_available <;> simp [h]

/-- During one watchdog pass, a `disconnected(s)` edge comes either from
the starting accumulator or from an entry for `s` that was available,
stale, and had no live subscription. -/
theorem check_fold_disconnected (has_active_sub : String → Bool)
    (now stale_threshold : Int) (entries : List (String × DeviceStatus))
    (acc : DeviceAvailability × List AvailEvent) (s : String)
    (hdis : AvailEvent.disconnected s ∈
      (entries.foldl (check_devices_step has_active_sub now stale_threshold)
        acc).2) :
    AvailEvent.disconnected s ∈ acc.2 ∨
      ∃ st, (s, st) ∈ entries ∧ st.is_available = true ∧
        st.last_seen < stale_threshold ∧ has_active_sub s = false := by
  induction entries generalizing acc with
  | nil => exact Or.inl (by simpa using hdis)
  | cons e t ih =>
      obtain ⟨serial, status⟩ := e
      simp only [List.foldl_cons] at hdis
      rcases ih _ hdis with hacc | ⟨st, hst, hav, hls, hno⟩
      · by_cases hact : has_active_sub serial
        · simp only [check_devices_step, hact, if_true] at hacc
          rcases List.mem_append.mp hacc with h | h
          · exact Or.inl h
          · rcases mark_device_seen_events acc.1 serial now with he | he <;>
              simp [he] at h
        · by_cases hguard : status.is_available = true ∧
              status.last_seen < stale_threshold
          · simp only [check_devices_step, hact, if_false, if_pos hguard] at hacc
            rcases List.mem_append.mp hacc with h | h
            · exact Or.inl h
            · rcases mark_device_unavailable_events acc.1 serial with he | he
              · simp [he] at h
              · rw [he] at h
                simp only [List.mem_singleton, AvailEvent.disconnected.injEq] at h
                subst h
                exact Or.inr ⟨status, List.mem_cons_self _ _, hguard.1,
                  hguard.2, by simpa using hact⟩
          · simp only [check_devices_step, hact, if_false, if_neg hguard] at hacc
            exact Or.inl hacc
      · exact Or.inr ⟨st, List.mem_cons_of_mem _ hst, hav, hls, hno⟩

/-- `init_serial_step` never disturbs an existing binding. -/
theorem init_fold_preserves (now : Int) (serials : List String)
    (acc : DeviceAvailability) (s : String) (st : DeviceStatus)
    (h : alookup acc.devices s = some st) :
    alookup (serials.foldl (init_serial_step now) acc).devices s = some st := by
  induction serials generalizing acc with
  | nil => simpa using h
  | cons x t ih =>
      simp only [List.foldl_cons]
      refine ih _ ?_
      unfold init_serial_step
      by_cases hx : (alookup acc.devices x).isSome
      · simpa [hx] using h
      · simp only [hx, if_false]
        by_cases hxs : x = s
        · subst hxs; simp [h] at hx
        · simpa [alookup_ainsert_ne _ _ _ _ hxs] using h

/-- `initialize_from_serials` tracks a fresh serial as available with
`last_seen = now`. -/
theorem init_fold_adds (now : Int) (serials : List String)
    (acc : DeviceAvailability) (s : String) (hs : s ∈ serials)
    (h : alookup acc.devices s = none) :
    alookup (serials.foldl (init_serial_step now) acc).devices s =
      some { serial := s, last_seen := now, is_available := true } := by
  induction serials generalizing acc with
  | nil => simp at hs
  | cons x t ih =>
      simp only [List.foldl_cons]
      by_cases hxs : x = s
      · subst hxs
        refine init_fold_preserves now t _ x _ ?_
        simp [init_serial_step, h, alookup_ainsert_self]
      · rcases List.mem_cons.mp hs with h' | h'
        · exact absurd h'.symm hxs
        · have hnext : alookup (init_serial_step now acc x).devices s = none := by
            unfold init_serial_step
            by_cases hx : (alookup acc.devices x).isSome
            · simpa [hx] using h
            · simpa [hx, alookup_ainsert_ne _ _ _ _ hxs] using h
          exact ih _ h' hnext

/-! ## Concrete instances used for counterexamples and witnesses -/

/-- A long-poll subscription for serial `S` watching `device.S` at
revision 5. -/
def exLpSub : LongPollSubscription :=
  { id := 0, serial := "S", session_id := "sess-1",
    subscribed_keys := [("device.S", 5)] }

/-- A manager with just that long-poll subscription. -/
def exLpMgr : SubscriptionManager :=
  { long_poll_subscriptions := [("S", [(0, exLpSub)])] }

/-- A batch that touches only `shared.S`, which `exLpSub` does not
watch. -/
def exBatch1 : List Dict :=
  [[("object_revision", PyVal.int 1), ("object_timestamp", PyVal.int 10),
    ("object_key", PyVal.str "shared.S"), ("value", PyVal.str "a")]]

/-- A second distinct batch for the same unwatched key. -/
def exBatch2 : List Dict :=
  [[("object_revision", PyVal.int 2), ("object_timestamp", PyVal.int 20),
    ("object_key", PyVal.str "shared.S"), ("value", PyVal.str "b")]]

/-- A pending future-based subscription for serial `S` watching
`device.S` at revision 5. -/
def exFutSub : PendingSubscription :=
  { serial := "S", session_id := 0, subscribed_keys := [("device.S", 5)] }

/-- A manager with just that future-based subscription. -/
def exFutMgr : SubscriptionManager :=
  { subscriptions := [("S", [(0, exFutSub)])] }

/-- An update of `device.S` to revision 6 (a real delta for the above
subscriptions). -/
def exObj6 : DeviceObject :=
  { serial := "S", object_key := "device.S", object_revision := 6,
    object_timestamp := 100, value := "v6" }

/-! ## Claims -/

/-- C1, counterexample: `notify_long_poll_subscribers` performs no delta
filtering.  With a single long-poll subscription watching only
`device.S`, a batch touching only `shared.S` has an empty spec delta,
yet the call reports one notified subscriber and the whole batch lands
on the subscription's queue. -/
theorem C1_long_poll_unfiltered_cex :
    spec_dict_delta exLpSub.subscribed_keys exBatch1 = [] ∧
    (notify_long_poll_subscribers exLpMgr "S" exBatch1).1 = 1 ∧
    (long_poll_subs_of (notify_long_poll_subscribers exLpMgr "S" exBatch1).2
        "S").map (fun e => e.2.notify_queue) = [[exBatch1]] := by
  decide

/-- C1, amended: the future-based `notify_subscribers` delivers to each
still-pending subscription exactly the spec delta
`{o ∈ batch | o.object_key ∈ watched ∧ o.revision > watched[o.object_key]}`
and delivers nothing when that delta is empty; `notify_long_poll_subscribers`
instead delivers the entire batch, unfiltered, to every long-poll
subscription for the serial. -/
theorem C1_notify_delta (m : SubscriptionManager) (serial : String)
    (updated_objects : List DeviceObject) (changed_objects : List Dict) :
    ((notify_subscribers m serial updated_objects).2.2 =
      (future_subs_of m serial).filterMap (fun (session_id, sub) =>
        if ¬(spec_delta sub.subscribed_keys updated_objects).isEmpty ∧
            ¬sub.future_done then
          some (session_id, spec_delta sub.subscribed_keys updated_objects)
        else none)) ∧
    (long_poll_subs_of
        (notify_long_poll_subscribers m serial changed_objects).2 serial =
      (long_poll_subs_of m serial).map (fun e =>
        (e.1,
         { e.2 with notify_queue := e.2.notify_queue ++ [changed_objects] }))) :=
  ⟨notify_subscribers_deliveries_eq m serial updated_objects,
   (notify_long_poll_subscribers_eq m serial changed_objects).1⟩

/-- C2, counterexample: notifying a long-poll subscription does not close
it.  Starting from one long-poll subscription, two successive notify
calls with the same batch both report a delivery, the subscription is
still registered afterwards, and its queue holds the batch twice — the
same objects were delivered to the same subscription twice. -/
theorem C2_delivered_twice_cex :
    (notify_long_poll_subscribers exLpMgr "S" exBatch1).1 = 1 ∧
    (notify_long_poll_subscribers
      (notify_long_poll_subscribers exLpMgr "S" exBatch1).2 "S" exBatch1).1 = 1 ∧
    (long_poll_subs_of
        (notify_long_poll_subscribers
          (notify_long_poll_subscribers exLpMgr "S" exBatch1).2 "S"
          exBatch1).2 "S").map (fun e => e.2.notify_queue) =
      [[exBatch1, exBatch1]] := by
  decide

/-- C2, amended: a future-based subscription is delivered to at most
once — delivery removes its session from the per-serial table, and an
absent session receives no delivery from a later notify — while a
long-poll subscription is not closed by notify (its registration
survives; only its queue grows). -/
theorem C2_at_most_once (m : SubscriptionManager) (serial : String)
    (updated_objects : List DeviceObject) (changed_objects : List Dict)
    (sid : Nat)
    (hser : (m.subscriptions.map Prod.fst).Nodup)
    (hsubs : ((future_subs_of m serial).map Prod.fst).Nodup) :
    (sid ∈ ((notify_subscribers m serial updated_objects).2.2).map Prod.fst →
      alookup
        (future_subs_of (notify_subscribers m serial updated_objects).2.1
          serial) sid = none) ∧
    (alookup (future_subs_of m serial) sid = none →
      sid ∉ ((notify_subscribers m serial updated_objects).2.2).map Prod.fst) ∧
    ((long_poll_subs_of
        (notify_long_poll_subscribers m serial changed_objects).2 serial).map
        Prod.fst =
      (long_poll_subs_of m serial).map Prod.fst) := by
  refine ⟨fun h => notify_subscribers_closes m serial updated_objects sid
      hser hsubs h,
    fun h => notify_subscribers_not_delivered m serial updated_objects sid h,
    ?_⟩
  rw [(notify_long_poll_subscribers_eq m serial changed_objects).1]
  simp

/-- C2 witness: with one pending future-based subscription watching
`device.S` at revision 5, an update to revision 6 is delivered and the
session is gone from the table afterwards. -/
theorem C2_at_most_once_witness :
    ((exFutMgr.subscriptions.map Prod.fst).Nodup ∧
     ((future_subs_of exFutMgr "S").map Prod.fst).Nodup ∧
     0 ∈ ((notify_subscribers exFutMgr "S" [exObj6]).2.2).map Prod.fst) ∧
    alookup (future_subs_of (notify_subscribers exFutMgr "S" [exObj6]).2.1 "S")
      0 = none :=
  ⟨⟨by decide, by decide, by decide⟩,
   (C2_at_most_once exFutMgr "S" [exObj6] exBatch1 0 (by decide)
     (by decide)).1 (by decide)⟩

/-- C3, counterexample: the notify channel is not a capacity-1 queue with
merge-on-full.  Two successive notifies leave two distinct pending
batches on the same subscription's queue, unmerged. -/
theorem C3_no_capacity_one_merge_cex :
    (long_poll_subs_of
        (notify_long_poll_subscribers
          (notify_long_poll_subscribers exLpMgr "S" exBatch1).2 "S"
          exBatch2).2 "S").map (fun e => e.2.notify_queue) =
      [[exBatch1, exBatch2]] ∧
    exBatch1 ≠ exBatch2 := by
  decide

/-- C3, amended: each subscription's notify channel is an unbounded
queue; a notify appends the new batch as an additional element behind
any pending ones — nothing is merged and nothing is dropped — and every
subscription for the serial is counted as notified. -/
theorem C3_unbounded_append (m : SubscriptionManager) (serial : String)
    (changed_objects : List Dict) :
    (notify_long_poll_subscribers m serial changed_objects).1 =
      (long_poll_subs_of m serial).length ∧
    long_poll_subs_of
        (notify_long_poll_subscribers m serial changed_objects).2 serial =
      (long_poll_subs_of m serial).map (fun e =>
        (e.1,
         { e.2 with notify_queue := e.2.notify_queue ++ [changed_objects] })) :=
  ⟨(notify_long_poll_subscribers_eq m serial changed_objects).2,
   (notify_long_poll_subscribers_eq m serial changed_objects).1⟩

/-- One of 100 long-poll registrations filling serial `B`. -/
def c4_lp_entry (i : Nat) : Nat × LongPollSubscription :=
  (i, { id := i, serial := "B", session_id := "s",
        subscribed_keys := [("shared.B", 1)] })

/-- One of 100 future-based registrations filling serial `B`. -/
def c4_fut_entry (i : Nat) : Nat × PendingSubscription :=
  (i, { serial := "B", session_id := i,
        subscribed_keys := [("shared.B", 1)] })

/-- A manager with both tables for serial `B` at the cap. -/
def c4_mgr : SubscriptionManager :=
  { subscriptions := [("B", (List.range 100).map c4_fut_entry)],
    long_poll_subscriptions := [("B", (List.range 100).map c4_lp_entry)] }

/-- C4: with `max_subscriptions_per_device` (100) live subscriptions for
a serial, a further long-poll registration returns `None` and leaves the
manager untouched, the future-based registration raises 429
(`Except.error`), and any registration keeps the per-serial live count at
or below the cap. -/
theorem C4_subscription_cap (m : SubscriptionManager)
    (serial session_id : String) (keys : List (String × Int))
    (hlp : (long_poll_subs_of m serial).length =
      max_subscriptions_per_device)
    (hfut : (future_subs_of m serial).length = max_subscriptions_per_device) :
    add_long_poll_subscription m serial session_id keys = (none, m) ∧
    add_subscription m serial keys = Except.error () ∧
    (∀ (m' : SubscriptionManager) (s sess : String)
       (ks : List (String × Int)),
      (long_poll_subs_of m' s).length ≤ max_subscriptions_per_device →
      (long_poll_subs_of (add_long_poll_subscription m' s sess ks).2 s).length ≤
        max_subscriptions_per_device) ∧
    (∀ (m' : SubscriptionManager) (s : String) (ks : List (String × Int))
       (sid : Nat) (m2 : SubscriptionManager),
      add_subscription m' s ks = Except.ok (sid, m2) →
      (future_subs_of m' s).length ≤ max_subscriptions_per_device →
      (future_subs_of m2 s).length ≤ max_subscriptions_per_device) := by
  refine ⟨?_, ?_, ?_, ?_⟩
  · simp [add_long_poll_subscription, hlp]
  · simp [add_subscription, hfut]
  · intro m' s sess ks hle
    by_cases hcap :
        (long_poll_subs_of m' s).length ≥ max_subscriptions_per_device
    · simpa [add_long_poll_subscription, hcap] using hle
    · have hlt : (long_poll_subs_of m' s).length <
          max_subscriptions_per_device := by omega
      simp only [add_long_poll_subscription, if_neg hcap]
      simp only [long_poll_subs_of, alookup_ainsert_self, Option.getD_some]
      calc (ainsert (long_poll_subs_of m' s) m'.next_id _).length
          ≤ (long_poll_subs_of m' s).length + 1 := ainsert_length_le _ _ _
        _ ≤ max_subscriptions_per_device := by omega
  · intro m' s ks sid m2 hok hle
    by_cases hcap :
        (future_subs_of m' s).length ≥ max_subscriptions_per_device
    · simp [add_subscription, hcap] at hok
    · have hlt : (future_subs_of m' s).length <
          max_subscriptions_per_device := by omega
      simp only [add_subscription, if_neg hcap, Except.ok.injEq,
        Prod.mk.injEq] at hok
      obtain ⟨-, hm2⟩ := hok
      subst hm2
      simp only [future_subs_of, alookup_ainsert_self, Option.getD_some]
      calc (ainsert (future_subs_of m' s) m'.next_id _).length
          ≤ (future_subs_of m' s).length + 1 := ainsert_length_le _ _ _
        _ ≤ max_subscriptions_per_device := by omega

/-- C4 witness: the concrete manager `c4_mgr` holds exactly 100
subscriptions of each kind for serial `B`; the 101st long-poll
registration is refused without disturbing the state and the 101st
future-based registration raises. -/
theorem C4_subscription_cap_witness :
    ((long_poll_subs_of c4_mgr "B").length = max_subscriptions_per_device ∧
     (future_subs_of c4_mgr "B").length = max_subscriptions_per_device) ∧
    add_long_poll_subscription c4_mgr "B" "sess" [] = (none, c4_mgr) ∧
    add_subscription c4_mgr "B" [] = Except.error () := by
  have h1 : (long_poll_subs_of c4_mgr "B").length =
      max_subscriptions_per_device := by
    simp [c4_mgr, long_poll_subs_of, alookup, max_subscriptions_per_device]
  have h2 : (future_subs_of c4_mgr "B").length =
      max_subscriptions_per_device := by
    simp [c4_mgr, future_subs_of, alookup, max_subscriptions_per_device]
  exact ⟨⟨h1, h2⟩, (C4_subscription_cap c4_mgr "B" "sess" [] h1 h2).1,
    (C4_subscription_cap c4_mgr "B" "sess" [] h1 h2).2.1⟩

/-- C5: `upsert` is atomic per `(serial, object_key)`: with a stored
revision at least the incoming one it returns `stale`, leaves the store
unchanged, and publishes nothing; with a greater incoming revision it
writes the new record and publishes exactly the written object; a
publication happens iff the result is `written`, and a successful write
strictly increases the stored revision. -/
theorem C5_upsert_atomic (st : ObjectStore) (obj : DeviceObject)
    (stored : StoredState)
    (h : alookup st.states (obj.serial, obj.object_key) = some stored) :
    (stored.revision ≥ obj.object_revision →
      upsert st obj = (UpsertResult.stale, st, [])) ∧
    (stored.revision < obj.object_revision →
      (upsert st obj).1 = UpsertResult.written ∧
      alookup (upsert st obj).2.1.states (obj.serial, obj.object_key) =
        some { revision := obj.object_revision,
               timestamp := obj.object_timestamp, value := obj.value } ∧
      (upsert st obj).2.2 = [obj]) ∧
    ((upsert st obj).1 = UpsertResult.written →
      stored.revision < obj.object_revision) ∧
    (¬(upsert st obj).2.2 = [] ↔ (upsert st obj).1 = UpsertResult.written) := by
  by_cases hrev : stored.revision ≥ obj.object_revision
  · refine ⟨fun _ => by simp [upsert, h, hrev], fun hlt => absurd hrev (by omega),
      fun hw => ?_, ?_⟩
    · simp [upsert, h, hrev] at hw
    · simp [upsert, h, hrev]
  · have hlt : stored.revision < obj.object_revision := by omega
    refine ⟨fun hge => absurd hge hrev, fun _ => ?_, fun _ => hlt, ?_⟩
    · exact ⟨by simp [upsert, h, hrev],
        by simp [upsert, h, hrev, alookup_ainsert_self],
        by simp [upsert, h, hrev]⟩
    · simp [upsert, h, hrev]

/-- The record stored for `(S, device.S)` in the C5 witness store. -/
def c5_entry : StoredState := { revision := 5, timestamp := 50, value := "v5" }

/-- A store holding `device.S` at revision 5. -/
def c5_store : ObjectStore := { states := [(("S", "device.S"), c5_entry)] }

/-- An incoming write of `device.S` at the same revision 5 (stale). -/
def c5_stale_obj : DeviceObject :=
  { serial := "S", object_key := "device.S", object_revision := 5,
    object_timestamp := 60, value := "v5b" }

/-- C5 witness: upserting revision 5 over stored revision 5 is rejected
as stale with no store change and no publication, while upserting
revision 6 (`exObj6`) is written. -/
theorem C5_upsert_atomic_witness :
    (alookup c5_store.states ("S", "device.S") = some c5_entry ∧
     c5_entry.revision ≥ c5_stale_obj.object_revision ∧
     c5_entry.revision < exObj6.object_revision) ∧
    upsert c5_store c5_stale_obj = (UpsertResult.stale, c5_store, []) ∧
    (upsert c5_store exObj6).1 = UpsertResult.written :=
  ⟨⟨by decide, by decide, by decide⟩,
   (C5_upsert_atomic c5_store c5_stale_obj c5_entry (by decide)).1 (by decide),
   ((C5_upsert_atomic c5_store exObj6 c5_entry (by decide)).2.1
     (by decide)).1⟩

/-- C6: a delivered notify payload is built by
`notify_subscribers_with_objects`, which appends exactly the formatted
batch to every long-poll subscriber's queue, and every formatted object
element has field order exactly
`object_revision, object_timestamp, object_key, value` with no `serial`
field. -/
theorem C6_field_order (m : SubscriptionManager) (serial : String)
    (updated_objects : List DeviceObject)
    (h : updated_objects.isEmpty = false) :
    (long_poll_subs_of
        (notify_subscribers_with_objects m serial updated_objects).2.1
        serial =
      (long_poll_subs_of m serial).map (fun e =>
        (e.1,
         { e.2 with notify_queue :=
             e.2.notify_queue ++ [format_updated_objects updated_objects] }))) ∧
    (∀ d ∈ format_updated_objects updated_objects,
      d.map Prod.fst =
        ["object_revision", "object_timestamp", "object_key", "value"] ∧
      alookup d "serial" = none) := by
  constructor
  · have hfr := (notify_subscribers_frame
      (notify_long_poll_subscribers m serial
        (format_updated_objects updated_objects)).2 serial updated_objects).1
    have heq := (notify_long_poll_subscribers_eq m serial
      (format_updated_objects updated_objects)).1
    simp only [notify_subscribers_with_objects, h, Bool.false_eq_true,
      if_false, notify_all]
    rw [← heq]
    simp only [long_poll_subs_of, hfr]
  · intro d hd
    simp only [format_updated_objects, List.mem_map] at hd
    obtain ⟨obj, -, rfl⟩ := hd
    exact ⟨rfl, by simp [alookup]⟩

/-- The formatted dict for `exObj6`. -/
def c6_dict : Dict :=
  [("object_revision", PyVal.int 6), ("object_timestamp", PyVal.int 100),
   ("object_key", PyVal.str "device.S"), ("value", PyVal.str "v6")]

/-- C6 witness: the concrete formatted element for `exObj6` carries the
mandated field order and no `serial`. -/
theorem C6_field_order_witness :
    ([exObj6].isEmpty = false ∧ c6_dict ∈ format_updated_objects [exObj6]) ∧
    (c6_dict.map Prod.fst =
      ["object_revision", "object_timestamp", "object_key", "value"] ∧
     alookup c6_dict "serial" = none) :=
  ⟨⟨rfl, by decide⟩,
   (C6_field_order exLpMgr "S" [exObj6] rfl).2 c6_dict (by decide)⟩

/-- C7, counterexample: removing a live future-based subscription does
not record an end timestamp.  `exFutMgr` holds a live future-based
subscription; `remove_subscription` removes it, yet
`_last_subscription_end` stays empty and `is_resubscribe` is false at
the very moment of removal — where the claim ("every unsubscribe …
records the end timestamp") requires `now − last_ended = 0 < 5`, hence
true. -/
theorem C7_future_unsubscribe_cex :
    (alookup (future_subs_of exFutMgr "S") 0).isSome ∧
    future_subs_of (remove_subscription exFutMgr "S" 0) "S" = [] ∧
    (remove_subscription exFutMgr "S" 0).last_subscription_end = [] ∧
    is_resubscribe (remove_subscription exFutMgr "S" 0) "S" 0 = false := by
  decide

/-- C7, amended: `is_resubscribe(serial)` is true iff a recorded
`last_ended[serial]` lies within `RESUBSCRIBE_WINDOW` (5 s) of now, and
false when none was ever recorded; the end timestamp is recorded by the
removal of a live long-poll subscription, while future-based removal
leaves `last_ended` untouched. -/
theorem C7_is_resubscribe (m : SubscriptionManager) (serial : String)
    (now : Int) (sub : LongPollSubscription) (sid : Nat) :
    (is_resubscribe m serial now = true ↔
      ∃ last_end, alookup m.last_subscription_end serial = some last_end ∧
        now - last_end < RESUBSCRIBE_WINDOW_SECONDS) ∧
    ((alookup (long_poll_subs_of m sub.serial) sub.id).isSome →
      alookup (remove_long_poll_subscription m sub now).last_subscription_end
        sub.serial = some now) ∧
    (remove_subscription m serial sid).last_subscription_end =
      m.last_subscription_end := by
  refine ⟨?_, ?_, ?_⟩
  · unfold is_resubscribe
    cases hl : alookup m.last_subscription_end serial with
    | none => simp
    | some last_end => simp [hl]
  · intro hsome
    unfold remove_long_poll_subscription
    simp only [hsome, if_true]
    split
    · simp [alookup_ainsert_self]
    · simp [alookup_ainsert_self]
  · unfold remove_subscription
    split
    · dsimp only
      split <;> rfl
    · rfl

/-- C7 witness: removing the live long-poll subscription `exLpSub` at
time 7 records `last_ended[S] = 7`. -/
theorem C7_is_resubscribe_witness :
    (alookup (long_poll_subs_of exLpMgr exLpSub.serial) exLpSub.id).isSome ∧
    alookup
      (remove_long_poll_subscription exLpMgr exLpSub 7).last_subscription_end
      exLpSub.serial = some 7 :=
  ⟨by decide, (C7_is_resubscribe exLpMgr "S" 7 exLpSub 0).2.1 (by decide)⟩

/-- An availability table with one available and one unavailable
device. -/
def c8_avail : DeviceAvailability :=
  { devices := [("A", { serial := "A", last_seen := 0, is_available := true }),
                ("U", { serial := "U", last_seen := 0, is_available := false })] }

/-- C8: availability edges are emitted only on transitions.
`mark_device_seen` emits `connected` exactly when the serial was
untracked or tracked-unavailable, and emits nothing for a tracked
available device; `_mark_device_unavailable` emits `disconnected`
exactly when the device was tracked and available; and a watchdog pass
emits `disconnected(s)` only for a serial whose snapshot was available,
stale, and without a live subscription. -/
theorem C8_edges_only_on_transitions (d : DeviceAvailability)
    (serial : String) (now : Int) (has_active_sub : String → Bool)
    (s : String) :
    ((mark_device_seen d serial now).2 = [AvailEvent.connected serial] ↔
      alookup d.devices serial = none ∨
      ∃ st, alookup d.devices serial = some st ∧ st.is_available = false) ∧
    ((∃ st, alookup d.devices serial = some st ∧ st.is_available = true) →
      (mark_device_seen d serial now).2 = []) ∧
    ((mark_device_unavailable d serial).2 =
        [AvailEvent.disconnected serial] ↔
      ∃ st, alookup d.devices serial = some st ∧ st.is_available = true) ∧
    (AvailEvent.disconnected s ∈ (check_devices d has_active_sub now).2 →
      has_active_sub s = false ∧
      ∃ st, (s, st) ∈ d.devices ∧ st.is_available = true ∧
        st.last_seen < now - d.timeout) := by
  refine ⟨?_, ?_, ?_, ?_⟩
  · unfold mark_device_seen
    cases hl : alookup d.devices serial with
    | none => simp
    | some status =>
        by_cases hav : status.is_available <;> simp [hav]
  · rintro ⟨st, hst, hav⟩
    unfold mark_device_seen
    simp [hst, hav]
  · unfold mark_device_unavailable
    cases hl : alookup d.devices serial with
    | none => simp
    | some status =>
        by_cases hav : status.is_available <;> simp [hav]
  · intro hdis
    rcases check_fold_disconnected has_active_sub now (now - d.timeout)
        d.devices (d, []) s hdis with hacc | ⟨st, hst, hav, hls, hno⟩
    · simp at hacc
    · exact ⟨hno, st, hst, hav, hls⟩

/-- C8 witness: on the concrete table, marking the unavailable device
seen emits exactly one `connected` edge, marking the available device
seen emits nothing, and a watchdog pass at time 301 (timeout 300) emits
a `disconnected` edge only for the available stale device. -/
theorem C8_edges_witness :
    ((∃ st, alookup c8_avail.devices "U" = some st ∧
        st.is_available = false) ∧
     (∃ st, alookup c8_avail.devices "A" = some st ∧
        st.is_available = true) ∧
     AvailEvent.disconnected "A" ∈
       (check_devices c8_avail (fun _ => false) 301).2) ∧
    (mark_device_seen c8_avail "U" 5).2 = [AvailEvent.connected "U"] ∧
    (mark_device_seen c8_avail "A" 5).2 = [] ∧
    ((fun _ => false : String → Bool) "A" = false ∧
      ∃ st, ("A", st) ∈ c8_avail.devices ∧ st.is_available = true ∧
        st.last_seen < 301 - c8_avail.timeout) :=
  ⟨⟨⟨{ serial := "U", last_seen := 0, is_available := false }, by decide,
      by decide⟩,
    ⟨{ serial := "A", last_seen := 0, is_available := true }, by decide,
      by decide⟩,
    by decide⟩,
   (C8_edges_only_on_transitions c8_avail "U" 5 (fun _ => false) "A").1.mpr
     (Or.inr ⟨{ serial := "U", last_seen := 0, is_available := false },
       by decide, by decide⟩),
   (C8_edges_only_on_transitions c8_avail "A" 5 (fun _ => false) "A").2.1
     ⟨{ serial := "A", last_seen := 0, is_available := true }, by decide,
       by decide⟩,
   (C8_edges_only_on_transitions c8_avail "A" 301 (fun _ => false)
     "A").2.2.2 (by decide)⟩

/-- The default settings of environment.py: `api_origin` has no explicit
port. -/
def default_settings : Settings := {}

/-- `urlparse` of the default `api_origin`. -/
def default_parsed : ParsedOrigin :=
  { scheme := "https", hostname := "backdoor.nolongerevil.com", port := none }

/-- C9: with the default settings, every URL `handle_entry` returns is
built from the portless `settings.api_origin`, so none carries an
explicit port the firmware can find — although the code's own
`api_origin_with_port` helper (whose docstring promises explicit ports
in device URLs) would have produced one. -/
theorem C9_entry_urls_lack_explicit_port :
    renderOrigin default_parsed = default_settings.api_origin ∧
    (handle_entry_urls default_settings).all
      (fun e => !url_carries_explicit_port e.2) = true ∧
    url_carries_explicit_port
      (api_origin_with_port default_settings default_parsed) = true := by
  decide

/-- An untracked availability table (fresh service). -/
def c10_avail : DeviceAvailability := {}

/-- C10: `initialize_from_serials` emits no events, records each fresh
serial as available with `last_seen = now`, and leaves tracked serials
unchanged; consequently a restored device that never communicates later
produces a lone `disconnected` edge with no preceding `connected`
edge. -/
theorem C10_initialize_silent (d : DeviceAvailability)
    (serials : List String) (now : Int) (s : String) (st : DeviceStatus) :
    (initialize_from_serials d serials now).2 = [] ∧
    (s ∈ serials → alookup d.devices s = none →
      alookup (initialize_from_serials d serials now).1.devices s =
        some { serial := s, last_seen := now, is_available := true }) ∧
    (alookup d.devices s = some st →
      alookup (initialize_from_serials d serials now).1.devices s = some st) ∧
    (check_devices (initialize_from_serials c10_avail ["R"] 0).1
        (fun _ => false) (DEFAULT_DEVICE_TIMEOUT + 1)).2 =
      [AvailEvent.disconnected "R"] := by
  refine ⟨rfl, fun hs hnone => ?_, fun hsome => ?_, by decide⟩
  · exact init_fold_adds now serials d s hs hnone
  · exact init_fold_preserves now serials d s st hsome

/-- C10 witness: initializing from `["Q", "R"]` tracks the fresh serial
`R` as available at time 3 while leaving a previously tracked serial of
`c8_avail` untouched. -/
theorem C10_initialize_silent_witness :
    ("R" ∈ ["Q", "R"] ∧ alookup c10_avail.devices "R" = none ∧
     alookup c8_avail.devices "A" =
       some { serial := "A", last_seen := 0, is_available := true }) ∧
    alookup (initialize_from_serials c10_avail ["Q", "R"] 3).1.devices "R" =
      some { serial := "R", last_seen := 3, is_available := true } ∧
    alookup (initialize_from_serials c8_avail ["Q", "R"] 3).1.devices "A" =
      some { serial := "A", last_seen := 0, is_available := true } :=
  ⟨⟨by decide, rfl, by decide⟩,
   (C10_initialize_silent c10_avail ["Q", "R"] 3 "R"
     { serial := "R", last_seen := 0, is_available := true }).2.1
     (by decide) rfl,
   (C10_initialize_silent c8_avail ["Q", "R"] 3 "A"
     { serial := "A", last_seen := 0, is_available := true }).2.2.1
     (by decide)⟩

end NoLongerEvil
